import Mathlib

/-
Verification development for the windowed-array container in
src/libs/common/Array2D.hpp (class Array2D<T>).

The class is shallowly embedded: the mutable C++ object becomes a record
`Array2D α`, every member function becomes a pure function from the old
state (plus arguments) to the new state (plus result).  C++ `int` fields
are modelled as `Int`; the pixel buffer `std::vector<T>` as `List α`;
`double` geotransform entries as `ℚ` (exact arithmetic standing in for
the float operations the code performs); file I/O is modelled by the
value actually written/read (`NativeFile` for the native serializer, a
`GDALDataset` record for the raster library boundary).
-/

set_option linter.unusedVariables false

namespace RichDem

/-- State of an `Array2D<T>` object (Array2D.hpp lines 104-129): public
strings and geotransform, the private pixel buffer `data`, the six
extent/offset fields, the cached `num_data_cells` (initialised to -1)
and the `no_data` sentinel. -/
structure Array2D (α : Type) where
  filename : String
  basename : String
  geotransform : List ℚ
  projection : String
  data : List α
  total_height : Int
  total_width : Int
  view_height : Int
  view_width : Int
  view_xoff : Int
  view_yoff : Int
  num_data_cells : Int
  no_data : α

namespace Array2D

variable {α β : Type}

/-- Default constructor `Array2D()` (lines 191-199): registers GDAL and
zeroes the extents; `num_data_cells` keeps its member initialiser -1;
`no_data` is left uninitialised in C++, modelled as `default`. -/
def emptyArray [Inhabited α] : Array2D α :=
  { filename := "", basename := "", geotransform := [], projection := "",
    data := [], total_height := 0, total_width := 0,
    view_height := 0, view_width := 0, view_xoff := 0, view_yoff := 0,
    num_data_cells := -1, no_data := default }

/-- Member `resize(width,height,val)` (lines 342-347): clears and reallocates the
buffer to `width*height` copies of `val` and sets BOTH the total and the
view extents to the new size. -/
def resize (s : Array2D α) (width height : Int) (val : α) : Array2D α :=
  { s with data := List.replicate (width * height).toNat val,
           total_height := height, view_height := height,
           total_width := width, view_width := width }

/-- Member `resize(other,val)` (lines 349-353): resize to the other array's view
dimensions, then copy its geotransform. -/
def resizeLike (s : Array2D α) (other : Array2D β) (val : α) : Array2D α :=
  { s.resize other.view_width other.view_height val with
      geotransform := other.geotransform }

/-- Member `viewSize()` (line 259). -/
def viewSize (s : Array2D α) : Int := s.view_width * s.view_height

/-- Member `empty()` (line 266). -/
def isEmpty (s : Array2D α) : Bool := s.data.isEmpty

/-- Member `iToxy(i,x,y)` (lines 269-272): `x = i%view_width`, `y = i/view_width`.
C++ `%` and `/` on `int` truncate toward zero, i.e. `Int.tmod`/`Int.tdiv`. -/
def iToxy (s : Array2D α) (i : Int) : Int × Int :=
  (Int.tmod i s.view_width, Int.tdiv i s.view_width)

/-- Member `xyToI(x,y)` (lines 274-276): `y*view_width+x`. -/
def xyToI (s : Array2D α) (x y : Int) : Int :=
  y * s.view_width + x

/-- Member `nToI(i,dx,dy)` (lines 278-284): offset cell i by (dx,dy); return -1
when `x<0 || y<0 || x==view_width || y==view_height`, else `xyToI(x,y)`. -/
def nToI (s : Array2D α) (i dx dy : Int) : Int :=
  let x := Int.tmod i s.view_width + dx
  let y := Int.tdiv i s.view_width + dy
  if x < 0 ∨ y < 0 ∨ x = s.view_width ∨ y = s.view_height then -1
  else s.xyToI x y

/-- Cross-type `operator=` (lines 286-299): element-wise value conversion
of the source buffer (the conversion `U → T` is the parameter `f`),
verbatim copies of the extent/offset fields, of `num_data_cells` and of
the geotransform, and `no_data = (T)o.no_data`.  `filename`, `basename`
and `projection` of the target are not touched. -/
def assignFrom (f : β → α) (s : Array2D α) (o : Array2D β) : Array2D α :=
  { s with data := o.data.map f,
           total_height := o.total_height, total_width := o.total_width,
           view_height := o.view_height, view_width := o.view_width,
           view_xoff := o.view_xoff, view_yoff := o.view_yoff,
           num_data_cells := o.num_data_cells,
           geotransform := o.geotransform,
           no_data := f o.no_data }

/-- Member `operator==` (lines 301-310): false when view dimensions differ, false
when the no-data values differ, then a scan of the first
`view_width*view_height` linear indices comparing cells. -/
def arrayEq [DecidableEq α] (s o : Array2D α) : Bool :=
  if s.view_width ≠ o.view_width ∨ s.view_height ≠ o.view_height then false
  else if s.no_data ≠ o.no_data then false
  else (List.range (s.view_width * s.view_height).toNat).all fun i =>
    decide (s.data.getD i s.no_data = o.data.getD i s.no_data)

/-- Member `in_grid(x,y)` (lines 325-327). -/
def in_grid (s : Array2D α) (x y : Int) : Bool :=
  decide (0 ≤ x ∧ x < s.view_width ∧ 0 ≤ y ∧ y < s.view_height)

/-- Member `isEdgeCell(x,y)` (lines 502-504). -/
def isEdgeCell (s : Array2D α) (x y : Int) : Bool :=
  decide (x = 0 ∨ y = 0 ∨ x = s.view_width - 1 ∨ y = s.view_height - 1)

/-- Member `setNoData(ndval)` (lines 329-331): assigns the `no_data` member. -/
def setNoData (s : Array2D α) (ndval : α) : Array2D α :=
  { s with no_data := ndval }

/-- Member `setAll(val)` (lines 333-335): `std::fill` over the buffer. -/
def setAll (s : Array2D α) (val : α) : Array2D α :=
  { s with data := s.data.map fun _ => val }

/-- Member `init(val)` (lines 337-339): delegates to `setAll`. -/
def init (s : Array2D α) (val : α) : Array2D α :=
  s.setAll val

/-- Member `setRow(y,val)` (lines 429-432): `data[y*view_width+x] = val` for
`x = 0 .. view_width-1`.  An out-of-range index is UB in C++; `List.set`
is a no-op there. -/
def setRow (s : Array2D α) (y : Int) (val : α) : Array2D α :=
  { s with data :=
      ((List.range s.view_width.toNat).foldl
        (fun d x => d.set (y * s.view_width + Int.ofNat x).toNat val) s.data) }

/-- Member `setCol(x,val)` (lines 434-437): `data[y*view_width+x] = val` for
`y = 0 .. view_height-1`. -/
def setCol (s : Array2D α) (x : Int) (val : α) : Array2D α :=
  { s with data :=
      ((List.range s.view_height.toNat).foldl
        (fun d y => d.set (Int.ofNat y * s.view_width + x).toNat val) s.data) }

/-- Member `clear()` (lines 443-446): releases the buffer; no other field is
touched. -/
def clear (s : Array2D α) : Array2D α :=
  { s with data := [] }

/-- Member `countDataCells()` (lines 355-360): rescan the buffer and store the
number of cells whose value differs from `no_data`. -/
def countDataCells [DecidableEq α] (s : Array2D α) : Array2D α :=
  { s with num_data_cells :=
      ((s.data.countP fun v => decide (v ≠ s.no_data) : Nat) : Int) }

/-- Member `numDataCells()` (lines 362-366): recompute only when the cache still
holds the -1 sentinel, then return the cached field.  The result pairs
the returned value with the (possibly updated) object state. -/
def numDataCells [DecidableEq α] (s : Array2D α) : Int × Array2D α :=
  if s.num_data_cells = -1 then
    let s' := s.countDataCells
    (s'.num_data_cells, s')
  else (s.num_data_cells, s)

/-- Brute-force data-cell count of a buffer: the number of cells whose
value differs from the current `no_data` (the spec's reference count). -/
def bruteDataCount [DecidableEq α] (s : Array2D α) : Int :=
  ((s.data.countP fun v => decide (v ≠ s.no_data) : Nat) : Int)

end Array2D

/-- Value written by `saveNative` (lines 214-234): the seven `int` header
fields in file order, the `no_data` value, then the row-major payload. -/
structure NativeFile (α : Type) where
  total_height : Int
  total_width : Int
  view_height : Int
  view_width : Int
  view_xoff : Int
  view_yoff : Int
  num_data_cells : Int
  no_data : α
  payload : List α

namespace Array2D

variable {α β : Type}

/-- Payload emitted by the `saveNative` row loop (lines 232-233): for each
`y = 0 .. view_height-1` the `view_width` elements starting at
`data + y*view_width`, concatenated in order. -/
def rowsOut (s : Array2D α) : List α :=
  ((List.range s.view_height.toNat).map fun y =>
    (s.data.drop (y * s.view_width.toNat)).take s.view_width.toNat).flatten

/-- Member `saveNative(filename)` (lines 214-234): header fields in write order
followed by the payload. -/
def saveNative (s : Array2D α) : NativeFile α :=
  { total_height := s.total_height, total_width := s.total_width,
    view_height := s.view_height, view_width := s.view_width,
    view_xoff := s.view_xoff, view_yoff := s.view_yoff,
    num_data_cells := s.num_data_cells, no_data := s.no_data,
    payload := s.rowsOut }

/-- Sequential reads into a freshly sized buffer: the buffer positions are
overwritten in order by the source elements; a short source leaves the
tail of the buffer at its allocated value. -/
def readInto (buf src : List α) : List α :=
  src.take buf.length ++ buf.drop (min src.length buf.length)

/-- Member `loadNative(filename)` (lines 236-253): read the seven header fields
and `no_data` into the members in file order, call
`resize(view_width,view_height)` — which re-sets `total_width` and
`total_height` to the view dimensions — then read the payload rows
sequentially into the fresh buffer. -/
def loadNative [Inhabited α] (s : Array2D α) (f : NativeFile α) : Array2D α :=
  let s1 : Array2D α :=
    { s with total_height := f.total_height, total_width := f.total_width,
             view_height := f.view_height, view_width := f.view_width,
             view_xoff := f.view_xoff, view_yoff := f.view_yoff,
             num_data_cells := f.num_data_cells, no_data := f.no_data }
  let s2 := s1.resize f.view_width f.view_height default
  { s2 with data := readInto s2.data f.payload }

end Array2D

/-- Header data of an open raster dataset as the adapter consumes it
(band 1 size, band no-data value, geotransform, projection string) plus
the pixel function `pix column row` the per-scanline `RasterIO` reads
sample. -/
structure GDALDataset (α : Type) where
  width : Int
  height : Int
  no_data : α
  geotransform : List ℚ
  projection : String
  pix : Int → Int → α

namespace Array2D

variable {α β : Type}

/-- Window computation of `loadGDAL` for one axis (lines 159-170): first
`if(offset+want>=total) want = total-offset;`, then
`if(want==0) want = total;`. -/
def clampDim (total offset want : Int) : Int :=
  let w := if total ≤ offset + want then total - offset else want
  if w = 0 then total else w

/-- Pixels delivered by the `loadGDAL` row loop (lines 177-181): for each
`y = yOffset .. yOffset+view_height-1`, the `view_width` pixels starting
at column `xOffset` of row `y`, written at `(y-yOffset)*view_width`. -/
def gdalRows (ds : GDALDataset α) (xOffset yOffset vw vh : Int) : List α :=
  ((List.range vh.toNat).map fun r =>
    (List.range vw.toNat).map fun c =>
      ds.pix (xOffset + (c : Int)) (yOffset + (r : Int))).flatten

/-- Member `loadGDAL(filename,xOffset,yOffset,part_width,part_height)`
(lines 131-184): copy geotransform/projection/total extents/no-data from
the dataset header, clamp the requested window per axis, set the view
offsets, call `resize(view_width,view_height)` — which re-sets the total
extents to the view extents — and stream the rows in. -/
def loadGDAL [Inhabited α] (s : Array2D α) (ds : GDALDataset α)
    (xOffset yOffset part_width part_height : Int) : Array2D α :=
  let vw := clampDim ds.width xOffset part_width
  let vh := clampDim ds.height yOffset part_height
  let s1 : Array2D α :=
    { s with geotransform := ds.geotransform, projection := ds.projection,
             total_width := ds.width, total_height := ds.height,
             no_data := ds.no_data,
             view_width := vw, view_height := vh,
             view_xoff := xOffset, view_yoff := yOffset }
  let s2 := s1.resize vw vh default
  { s2 with data := readInto s2.data (gdalRows ds xOffset yOffset vw vh) }

/-- Output geotransform of `saveGDAL` (lines 471-479): a copy of the
view's geotransform whose entry 0 is incremented by
`xoffset*geotransform[1]` and whose entry 3 is incremented by
`yoffset*geotransform[5]`. -/
def saveGDALGeotransform (s : Array2D α) (xoffset yoffset : Int) : List ℚ :=
  let gt := s.geotransform
  let out0 := gt.set 0 (gt.getD 0 0 + (xoffset : ℚ) * gt.getD 1 0)
  out0.set 3 (out0.getD 3 0 + (yoffset : ℚ) * gt.getD 5 0)

/-- Member `getCellArea()` (lines 506-508). -/
def getCellArea (s : Array2D α) : ℚ :=
  s.geotransform.getD 1 0 * s.geotransform.getD 5 0

/-- States an `Array2D<T>` object can be put into through the public
interface: the constructors (lines 191-212) and the mutating member
functions.  The side conditions on the loading constructors record the
non-negativity under which the C++ allocation and asserts succeed. -/
inductive Reachable : {α : Type} → Array2D α → Prop where
  | empty {α : Type} [Inhabited α] : Reachable (emptyArray (α := α))
  | resize {α : Type} {s : Array2D α} (w h : Int) (val : α)
      (hw : 0 ≤ w) (hh : 0 ≤ h) :
      Reachable s → Reachable (s.resize w h val)
  | resizeLike {α β : Type} {s : Array2D α} {o : Array2D β} (val : α) :
      Reachable s → Reachable o → Reachable (s.resizeLike o val)
  | setNoData {α : Type} {s : Array2D α} (v : α) :
      Reachable s → Reachable (s.setNoData v)
  | setAll {α : Type} {s : Array2D α} (v : α) :
      Reachable s → Reachable (s.setAll v)
  | init {α : Type} {s : Array2D α} (v : α) :
      Reachable s → Reachable (s.init v)
  | setRow {α : Type} {s : Array2D α} (y : Int) (v : α) :
      Reachable s → Reachable (s.setRow y v)
  | setCol {α : Type} {s : Array2D α} (x : Int) (v : α) :
      Reachable s → Reachable (s.setCol x v)
  | clear {α : Type} {s : Array2D α} :
      Reachable s → Reachable s.clear
  | countDataCells {α : Type} [DecidableEq α] {s : Array2D α} :
      Reachable s → Reachable s.countDataCells
  | numDataCells {α : Type} [DecidableEq α] {s : Array2D α} :
      Reachable s → Reachable (s.numDataCells).2
  | assignFrom {α β : Type} {s : Array2D α} {o : Array2D β} (f : β → α) :
      Reachable s → Reachable o → Reachable (assignFrom f s o)
  | loadNative {α : Type} [Inhabited α] {s : Array2D α} (f : NativeFile α)
      (hw : 0 ≤ f.view_width) (hh : 0 ≤ f.view_height) :
      Reachable s → Reachable (s.loadNative f)
  | loadGDAL {α : Type} [Inhabited α] {s : Array2D α} (ds : GDALDataset α)
      (xOffset yOffset part_width part_height : Int)
      (hdw : 0 ≤ ds.width) (hdh : 0 ≤ ds.height)
      (hx0 : 0 ≤ xOffset) (hx1 : xOffset ≤ ds.width)
      (hy0 : 0 ≤ yOffset) (hy1 : yOffset ≤ ds.height)
      (hpw : 0 ≤ part_width) (hph : 0 ≤ part_height) :
      Reachable s → Reachable (s.loadGDAL ds xOffset yOffset part_width part_height)

/-- Dimension bookkeeping every state produced through the public
interface satisfies: the total extents coincide with the view extents
(because `resize` re-sets both and every load path ends in `resize`),
and the view extents are non-negative. -/
def wfDims (s : Array2D α) : Prop :=
  s.total_width = s.view_width ∧ s.total_height = s.view_height ∧
  0 ≤ s.view_width ∧ 0 ≤ s.view_height

/-- Buffer-length invariant of the spec: the pixel buffer holds exactly
`view_width*view_height` elements. -/
def lenInv (s : Array2D α) : Prop :=
  s.data.length = (s.view_width * s.view_height).toNat

instance (s : Array2D α) : Decidable (lenInv s) := by
  unfold lenInv; infer_instance

end Array2D

namespace Array2D

variable {α β : Type}

theorem length_readInto (buf src : List α) :
    (readInto buf src).length = buf.length := by
  simp [readInto]
  omega

theorem readInto_self (buf src : List α) (h : src.length = buf.length) :
    readInto buf src = src := by
  unfold readInto
  rw [← h, min_self, List.take_of_length_le le_rfl, h, List.drop_length,
    List.append_nil]

theorem flatten_chunks (w : Nat) :
    ∀ (h : Nat) (l : List α),
      ((List.range h).map fun y => (l.drop (y * w)).take w).flatten
        = l.take (h * w)
  | 0, l => by simp
  | h + 1, l => by
    rw [List.range_succ, List.map_append, List.flatten_append,
      flatten_chunks w h l]
    simp [Nat.succ_mul, List.take_add]

theorem rowsOut_eq_take (s : Array2D α) :
    s.rowsOut = s.data.take (s.view_height.toNat * s.view_width.toNat) := by
  unfold rowsOut
  exact flatten_chunks s.view_width.toNat s.view_height.toNat s.data

theorem rowsOut_eq_data (s : Array2D α)
    (h : s.data.length ≤ s.view_height.toNat * s.view_width.toNat) :
    s.rowsOut = s.data := by
  rw [rowsOut_eq_take]
  exact List.take_of_length_le h

theorem foldl_set_length (val : α) (g : Nat → Nat) :
    ∀ (idxs : List Nat) (d : List α),
      (idxs.foldl (fun d x => d.set (g x) val) d).length = d.length
  | [], d => rfl
  | i :: idxs, d => by
    rw [List.foldl_cons, foldl_set_length val g idxs, List.length_set]

theorem clampDim_nonneg {total offset want : Int}
    (ht : 0 ≤ total) (ho : 0 ≤ offset) (hot : offset ≤ total)
    (hw : 0 ≤ want) : 0 ≤ clampDim total offset want := by
  unfold clampDim
  dsimp only
  split_ifs <;> omega

theorem toNat_mul_of_nonneg {m n : Int} (hm : 0 ≤ m) (hn : 0 ≤ n) :
    (m * n).toNat = m.toNat * n.toNat := by
  obtain ⟨a, rfl⟩ := Int.eq_ofNat_of_zero_le hm
  obtain ⟨b, rfl⟩ := Int.eq_ofNat_of_zero_le hn
  rw [← Int.natCast_mul, Int.toNat_natCast, Int.toNat_natCast,
    Int.toNat_natCast]

theorem reachable_wfDims {s : Array2D α} (h : Reachable s) : wfDims s := by
  induction h with
  | empty => exact ⟨rfl, rfl, le_refl 0, le_refl 0⟩
  | resize w h val hw hh _ _ => exact ⟨rfl, rfl, hw, hh⟩
  | resizeLike val _ _ _ iho =>
      exact ⟨rfl, rfl, iho.2.2.1, iho.2.2.2⟩
  | setNoData v _ ih => exact ih
  | setAll v _ ih => exact ih
  | init v _ ih => exact ih
  | setRow y v _ ih => exact ih
  | setCol x v _ ih => exact ih
  | clear _ ih => exact ih
  | countDataCells _ ih => exact ih
  | numDataCells _ ih =>
      unfold Array2D.numDataCells
      split_ifs <;> exact ih
  | assignFrom f _ _ _ iho =>
      exact ⟨iho.1, iho.2.1, iho.2.2.1, iho.2.2.2⟩
  | loadNative f hw hh _ _ => exact ⟨rfl, rfl, hw, hh⟩
  | loadGDAL ds xO yO pw ph hdw hdh hx0 hx1 hy0 hy1 hpw hph _ _ =>
      exact ⟨rfl, rfl, clampDim_nonneg hdw hx0 hx1 hpw,
        clampDim_nonneg hdh hy0 hy1 hph⟩

end Array2D

open Array2D

/-- C9: `setNoData(v)` changes only the `no_data` field: the pixel buffer,
all dimension and offset fields, the geotransform, the projection and the
cached `num_data_cells` keep their previous values, so a previously
computed data-cell count is not recomputed against the new sentinel. -/
theorem C9_setNoData_frame {α : Type} (s : Array2D α) (v : α) :
    (s.setNoData v).no_data = v ∧
    (s.setNoData v).data = s.data ∧
    (s.setNoData v).total_width = s.total_width ∧
    (s.setNoData v).total_height = s.total_height ∧
    (s.setNoData v).view_width = s.view_width ∧
    (s.setNoData v).view_height = s.view_height ∧
    (s.setNoData v).view_xoff = s.view_xoff ∧
    (s.setNoData v).view_yoff = s.view_yoff ∧
    (s.setNoData v).geotransform = s.geotransform ∧
    (s.setNoData v).projection = s.projection ∧
    (s.setNoData v).num_data_cells = s.num_data_cells :=
  ⟨rfl, rfl, rfl, rfl, rfl, rfl, rfl, rfl, rfl, rfl, rfl⟩

/-- C10: cross-type assignment produces a buffer whose every cell is the
value-converted source cell, copies total and view dimensions, view
offsets and geotransform, converts `no_data` by the same cast, and copies
the cached `num_data_cells` verbatim without recomputing it (for every
conversion `f`, in particular ones that change which cells compare equal
to the converted no-data). -/
theorem C10_cross_type_assign {α β : Type} (f : β → α)
    (s : Array2D α) (o : Array2D β) :
    (assignFrom f s o).data = o.data.map f ∧
    (assignFrom f s o).total_width = o.total_width ∧
    (assignFrom f s o).total_height = o.total_height ∧
    (assignFrom f s o).view_width = o.view_width ∧
    (assignFrom f s o).view_height = o.view_height ∧
    (assignFrom f s o).view_xoff = o.view_xoff ∧
    (assignFrom f s o).view_yoff = o.view_yoff ∧
    (assignFrom f s o).geotransform = o.geotransform ∧
    (assignFrom f s o).no_data = f o.no_data ∧
    (assignFrom f s o).num_data_cells = o.num_data_cells :=
  ⟨rfl, rfl, rfl, rfl, rfl, rfl, rfl, rfl, rfl, rfl⟩

/-- C7: the geotransform written by `saveGDAL` with offsets
(xoffset, yoffset) has entry 0 equal to `geotransform[0] +
xoffset*geotransform[1]` and entry 3 equal to `geotransform[3] +
yoffset*geotransform[5]`, the other four entries unchanged. -/
theorem C7_saveGDAL_geotransform {α : Type} (s : Array2D α)
    (ox px rx oy ry py : ℚ) (xoffset yoffset : Int)
    (hgt : s.geotransform = [ox, px, rx, oy, ry, py]) :
    s.saveGDALGeotransform xoffset yoffset =
      [ox + (xoffset : ℚ) * px, px, rx, oy + (yoffset : ℚ) * py, ry, py] := by
  unfold saveGDALGeotransform
  rw [hgt]
  rfl

/-- Witness for C7 at geotransform [0,2,0,10,0,-3] and offsets (3,4). -/
theorem C7_saveGDAL_geotransform_witness :
    ({ emptyArray (α := Int) with geotransform := [0, 2, 0, 10, 0, -3] } :
        Array2D Int).saveGDALGeotransform 3 4
      = [0 + (3 : ℚ) * 2, 2, 0, 10 + (4 : ℚ) * (-3), 0, -3] :=
  C7_saveGDAL_geotransform _ 0 2 0 10 0 (-3) 3 4 rfl

/-- C8: `xyToI(x,y) = y*view_width + x`; over the valid ranges the two
coordinate conversions are mutual inverses: `iToxy (xyToI x y) = (x,y)`
and `xyToI` applied to `iToxy i` returns `i`. -/
theorem C8_coordinate_inverses {α : Type} (s : Array2D α) (x y i : Int)
    (hvw : 0 < s.view_width) (hvh : 0 < s.view_height)
    (hx0 : 0 ≤ x) (hx1 : x < s.view_width)
    (hy0 : 0 ≤ y) (hy1 : y < s.view_height)
    (hi0 : 0 ≤ i) (hi1 : i < s.view_width * s.view_height) :
    s.xyToI x y = y * s.view_width + x ∧
    s.iToxy (s.xyToI x y) = (x, y) ∧
    s.xyToI (s.iToxy i).1 (s.iToxy i).2 = i := by
  have hvw0 : (0 : Int) ≤ s.view_width := le_of_lt hvw
  have hne : s.view_width ≠ 0 := ne_of_gt hvw
  refine ⟨rfl, ?_, ?_⟩
  · have hnn : 0 ≤ y * s.view_width + x :=
      add_nonneg (mul_nonneg hy0 hvw0) hx0
    unfold iToxy xyToI
    rw [Int.tmod_eq_emod hnn hvw0, Int.tdiv_eq_ediv hnn hvw0]
    have h1 : (y * s.view_width + x) % s.view_width = x := by
      rw [add_comm, Int.add_mul_emod_self, Int.emod_eq_of_lt hx0 hx1]
    have h2 : (y * s.view_width + x) / s.view_width = y := by
      rw [add_comm, Int.add_mul_ediv_right x y hne,
        Int.ediv_eq_zero_of_lt hx0 hx1, zero_add]
    rw [h1, h2]
  · unfold iToxy xyToI
    rw [Int.tmod_eq_emod hi0 hvw0, Int.tdiv_eq_ediv hi0 hvw0]
    rw [mul_comm (i / s.view_width) s.view_width]
    exact Int.ediv_add_emod i s.view_width

/-- Witness for C8 on a 4×3 view at (x,y) = (2,1) and i = 7. -/
theorem C8_coordinate_inverses_witness :
    ((emptyArray (α := Int)).resize 4 3 0).xyToI 2 1 = 1 * 4 + 2 ∧
    ((emptyArray (α := Int)).resize 4 3 0).iToxy
      (((emptyArray (α := Int)).resize 4 3 0).xyToI 2 1) = (2, 1) ∧
    ((emptyArray (α := Int)).resize 4 3 0).xyToI
      (((emptyArray (α := Int)).resize 4 3 0).iToxy 7).1
      (((emptyArray (α := Int)).resize 4 3 0).iToxy 7).2 = 7 :=
  C8_coordinate_inverses ((emptyArray (α := Int)).resize 4 3 0) 2 1 7
    (by decide) (by decide) (by decide) (by decide) (by decide) (by decide)
    (by decide) (by decide)

/-- C5, counterexample: on a 3×3 view, cell i = 2 offset by (dx,dy) =
(2,0) lands at x = 2%3+2 = 4, which is outside the view (first conjunct:
view_width ≤ x), yet `nToI` returns 4 rather than the off-grid sentinel
-1, because the code tests `x==view_width` instead of `x>=view_width`. -/
theorem C5_nToI_counterexample :
    ((emptyArray (α := Int)).resize 3 3 0).view_width ≤
      Int.tmod 2 ((emptyArray (α := Int)).resize 3 3 0).view_width + 2 ∧
    ((emptyArray (α := Int)).resize 3 3 0).nToI 2 2 0 = 4 := by
  decide

/-- C5 as amended: for every linear index 0 ≤ i < view_width*view_height
and every neighbour offset (dx,dy) with |dx| ≤ 1 and |dy| ≤ 1, `nToI`
returns the linear index of the cell at (i%view_width + dx,
i/view_width + dy) when that cell lies inside the view, and -1 whenever
it falls outside.  (For offsets of magnitude greater than 1 the code's
`x==view_width` / `y==view_height` tests can miss off-grid cells — see
the counterexample.) -/
theorem C5_nToI_neighbors {α : Type} (s : Array2D α) (i dx dy : Int)
    (hvw : 0 < s.view_width) (hvh : 0 < s.view_height)
    (hi0 : 0 ≤ i) (hi1 : i < s.view_width * s.view_height)
    (hdx0 : -1 ≤ dx) (hdx1 : dx ≤ 1) (hdy0 : -1 ≤ dy) (hdy1 : dy ≤ 1) :
    s.nToI i dx dy =
      if 0 ≤ Int.tmod i s.view_width + dx ∧
         Int.tmod i s.view_width + dx < s.view_width ∧
         0 ≤ Int.tdiv i s.view_width + dy ∧
         Int.tdiv i s.view_width + dy < s.view_height
      then s.xyToI (Int.tmod i s.view_width + dx)
             (Int.tdiv i s.view_width + dy)
      else -1 := by
  have hvw0 : (0 : Int) ≤ s.view_width := le_of_lt hvw
  have hm := Int.tmod_eq_emod hi0 hvw0
  have hd := Int.tdiv_eq_ediv hi0 hvw0
  have hm0 : 0 ≤ Int.tmod i s.view_width := by
    rw [hm]; exact Int.emod_nonneg i (ne_of_gt hvw)
  have hm1 : Int.tmod i s.view_width < s.view_width := by
    rw [hm]; exact Int.emod_lt_of_pos i hvw
  have hd0 : 0 ≤ Int.tdiv i s.view_width := by
    rw [hd]; exact Int.ediv_nonneg hi0 hvw0
  have hd1 : Int.tdiv i s.view_width < s.view_height := by
    rw [hd]
    refine (Int.ediv_lt_iff_lt_mul hvw).mpr ?_
    rw [mul_comm]; exact hi1
  unfold nToI xyToI
  dsimp only
  split_ifs <;> omega

/-- Witness for C5 on a 3×3 view: the east neighbour of cell 4 is 5. -/
theorem C5_nToI_neighbors_witness :
    ((emptyArray (α := Int)).resize 3 3 0).nToI 4 1 0 = 5 :=
  (C5_nToI_neighbors ((emptyArray (α := Int)).resize 3 3 0) 4 1 0
    (by decide) (by decide) (by decide) (by decide) (by decide) (by decide)
    (by decide) (by decide)).trans (by decide)

/-- C6: under the buffer-length invariant, `operator==` returns true iff
the view dimensions match, the no-data values match, and every
corresponding cell value matches; and the comparison reads neither the
total extents nor the view offsets nor the geotransform, so rewriting
those fields on one side never changes the result. -/
theorem C6_operator_eq {α : Type} [DecidableEq α] (s o : Array2D α)
    (hs : lenInv s) (ho : lenInv o) :
    (arrayEq s o = true ↔
      (s.view_width = o.view_width ∧ s.view_height = o.view_height ∧
       s.no_data = o.no_data ∧
       ∀ i : Nat, i < (s.view_width * s.view_height).toNat →
         s.data.getD i s.no_data = o.data.getD i s.no_data)) ∧
    (∀ (tw th xo yo : Int) (g : List ℚ),
      arrayEq { s with total_width := tw, total_height := th,
                       view_xoff := xo, view_yoff := yo,
                       geotransform := g } o = arrayEq s o) := by
  constructor
  · unfold arrayEq
    split_ifs with h1 h2
    · simp only [Bool.false_eq_true, false_iff]
      rintro ⟨hw, hh, -, -⟩
      rcases h1 with h1 | h1 <;> exact h1 (by assumption)
    · simp only [Bool.false_eq_true, false_iff]
      rintro ⟨-, -, hnd, -⟩
      exact h2 hnd
    · push_neg at h1
      simp only [List.all_eq_true, List.mem_range, decide_eq_true_eq]
      constructor
      · intro hall
        exact ⟨h1.1, h1.2, not_ne_iff.mp h2, fun i hi => hall i hi⟩
      · rintro ⟨-, -, -, hcell⟩ i hi
        exact hcell i hi
  · intro tw th xo yo g
    rfl

/-- Witness for C6: two views with the same pixels and no-data but
different total extents compare equal. -/
theorem C6_operator_eq_witness :
    lenInv (((emptyArray (α := Int)).resize 2 1 5).setNoData (-7)) ∧
    lenInv ({ ((emptyArray (α := Int)).resize 2 1 5).setNoData (-7) with
              total_width := 99, total_height := 88 } : Array2D Int) ∧
    arrayEq (((emptyArray (α := Int)).resize 2 1 5).setNoData (-7))
      ({ ((emptyArray (α := Int)).resize 2 1 5).setNoData (-7) with
         total_width := 99, total_height := 88 } : Array2D Int) = true :=
  ⟨by decide, by decide,
    ((C6_operator_eq (((emptyArray (α := Int)).resize 2 1 5).setNoData (-7))
      ({ ((emptyArray (α := Int)).resize 2 1 5).setNoData (-7) with
         total_width := 99, total_height := 88 } : Array2D Int)
      (by decide) (by decide)).1).mpr (by decide)⟩

/-- C2 evaluated on a width-10 dataset: requesting (xOffset = 5,
width = 20) clamps the view width to 10-5 = 5 as the claim states, but
requesting width 0 at xOffset = 5 sets the view width to the full total
width 10, not to the remaining extent 10-5 = 5 the claim requires. -/
theorem C2_window_clamp_eval :
    (((emptyArray (α := Int)).loadGDAL
        { width := 10, height := 1, no_data := -1, geotransform := [],
          projection := "", pix := fun _ _ => 0 } 5 0 20 0).view_width = 5) ∧
    (((emptyArray (α := Int)).loadGDAL
        { width := 10, height := 1, no_data := -1, geotransform := [],
          projection := "", pix := fun _ _ => 0 } 5 0 0 0).view_width = 10) := by
  decide

/-- C4, counterexample: on a 1×1 array holding 0 with no-data -1, a first
`numDataCells()` call caches the count 1; after `setAll(-1)` every cell
equals no-data (brute-force count 0), yet `numDataCells()` still returns
the stale cached 1. -/
theorem C4_numDataCells_counterexample :
    ((((((emptyArray (α := Int)).resize 1 1 0).setNoData
        (-1)).numDataCells).2.setAll (-1)).numDataCells).1 = 1 ∧
    bruteDataCount (((((emptyArray (α := Int)).resize 1 1 0).setNoData
        (-1)).numDataCells).2.setAll (-1)) = 0 := by
  decide

/-- C4 as amended: whenever the cache still holds the -1 "not yet
counted" sentinel — in particular on any array on which no count was ever
taken — `numDataCells()` returns the brute-force count of cells whose
value differs from the current `no_data`; once a count has been cached,
later mutations do not invalidate it (see the counterexample). -/
theorem C4_numDataCells_fresh {α : Type} [DecidableEq α] (s : Array2D α)
    (h : s.num_data_cells = -1) :
    (s.numDataCells).1 = s.bruteDataCount := by
  unfold Array2D.numDataCells
  rw [if_pos h]
  rfl

/-- Witness for C4 on a freshly built 2×2 array. -/
theorem C4_numDataCells_fresh_witness :
    (((emptyArray (α := Int)).resize 2 2 3).setNoData 3).num_data_cells
      = -1 ∧
    ((((emptyArray (α := Int)).resize 2 2 3).setNoData 3).numDataCells).1 =
      bruteDataCount (((emptyArray (α := Int)).resize 2 2 3).setNoData 3) :=
  ⟨by decide, C4_numDataCells_fresh _ (by decide)⟩

/-- C3, counterexample: `clear()` on a 2×2 array empties the buffer but
leaves `view_width = view_height = 2`, so the claimed equality
`data.length = view_width*view_height` does not survive `clear`. -/
theorem C3_buffer_length_counterexample :
    lenInv ((emptyArray (α := Int)).resize 2 2 0) ∧
    ¬ lenInv ((emptyArray (α := Int)).resize 2 2 0).clear ∧
    ((emptyArray (α := Int)).resize 2 2 0).clear.data.length = 0 ∧
    ((emptyArray (α := Int)).resize 2 2 0).clear.view_width = 2 ∧
    ((emptyArray (α := Int)).resize 2 2 0).clear.view_height = 2 := by
  decide

/-- C3 as amended: the equality `data.length = view_width*view_height`
holds for a fresh array and is preserved by `resize` (both forms),
`setAll`, `init`, `setNoData`, `setRow`, `setCol`, `countDataCells`,
`numDataCells`, cross-type assignment (given the source satisfies it) and
both load paths; `clear` is the exception: it empties the buffer while
leaving the view dimensions unchanged. -/
theorem C3_buffer_length {α β : Type} [Inhabited α] [DecidableEq α]
    (s : Array2D α) (o : Array2D β) (f : β → α) (fl : NativeFile α)
    (ds : GDALDataset α) (w h x y xO yO pw ph : Int) (val : α)
    (hs : lenInv s) (ho : lenInv o) :
    lenInv (emptyArray (α := α)) ∧
    lenInv (s.resize w h val) ∧
    lenInv (s.resizeLike o val) ∧
    lenInv (s.setAll val) ∧
    lenInv (s.init val) ∧
    lenInv (s.setNoData val) ∧
    lenInv (s.setRow y val) ∧
    lenInv (s.setCol x val) ∧
    lenInv s.countDataCells ∧
    lenInv (s.numDataCells).2 ∧
    lenInv (assignFrom f s o) ∧
    lenInv (s.loadNative fl) ∧
    lenInv (s.loadGDAL ds xO yO pw ph) ∧
    (s.clear.data.length = 0 ∧ s.clear.view_width = s.view_width ∧
     s.clear.view_height = s.view_height) := by
  refine ⟨rfl, ?_, ?_, ?_, ?_, hs, ?_, ?_, hs, ?_, ?_, ?_, ?_, rfl, rfl, rfl⟩
  · simp [lenInv, Array2D.resize]
  · simp [lenInv, Array2D.resizeLike, Array2D.resize]
  · simpa [lenInv, Array2D.setAll] using hs
  · simpa [lenInv, Array2D.init, Array2D.setAll] using hs
  · unfold lenInv Array2D.setRow
    exact (foldl_set_length val _ _ s.data).trans hs
  · unfold lenInv Array2D.setCol
    exact (foldl_set_length val _ _ s.data).trans hs
  · unfold Array2D.numDataCells
    split_ifs <;> exact hs
  · simpa [lenInv, Array2D.assignFrom] using ho
  · simp [lenInv, Array2D.loadNative, Array2D.resize, length_readInto]
  · simp [lenInv, Array2D.loadGDAL, Array2D.resize, length_readInto]

/-- Witness for C3: the invariant holds for a 2×2 array and is preserved
by a subsequent resize to 3×2. -/
theorem C3_buffer_length_witness :
    lenInv ((emptyArray (α := Int)).resize 2 2 0) ∧
    lenInv (((emptyArray (α := Int)).resize 2 2 0).resize 3 2 7) :=
  ⟨by decide,
    (C3_buffer_length ((emptyArray (α := Int)).resize 2 2 0)
      (emptyArray (α := Int)) id
      ⟨0, 0, 0, 0, 0, 0, -1, 0, []⟩
      ⟨0, 0, 0, [], "", fun _ _ => 0⟩ 3 2 0 0 0 0 0 0 7
      (by decide) (by decide)).2.1⟩

/-- C1: round-tripping any array the public interface can build (with its
buffer intact, i.e. satisfying the length invariant) through `saveNative`
and `loadNative` into a fresh array reproduces `view_width`,
`view_height`, `view_xoff`, `view_yoff`, `total_width`, `total_height`,
`num_data_cells`, `no_data` and every cell value; the geotransform and
projection are not written to the file and are not reproduced.  The
total extents survive because in every reachable state they already
coincide with the view extents (`resize` re-sets both, and each load
path ends in `resize`), which is exactly what `loadNative` leaves
behind. -/
theorem C1_native_roundtrip {α : Type} [Inhabited α] (s : Array2D α)
    (hr : Reachable s)
    (hlen : s.data.length = (s.view_width * s.view_height).toNat) :
    ((emptyArray (α := α)).loadNative s.saveNative).view_width
        = s.view_width ∧
    ((emptyArray (α := α)).loadNative s.saveNative).view_height
        = s.view_height ∧
    ((emptyArray (α := α)).loadNative s.saveNative).view_xoff
        = s.view_xoff ∧
    ((emptyArray (α := α)).loadNative s.saveNative).view_yoff
        = s.view_yoff ∧
    ((emptyArray (α := α)).loadNative s.saveNative).total_width
        = s.total_width ∧
    ((emptyArray (α := α)).loadNative s.saveNative).total_height
        = s.total_height ∧
    ((emptyArray (α := α)).loadNative s.saveNative).num_data_cells
        = s.num_data_cells ∧
    ((emptyArray (α := α)).loadNative s.saveNative).no_data = s.no_data ∧
    ((emptyArray (α := α)).loadNative s.saveNative).data = s.data := by
  obtain ⟨htw, hth, hvw0, hvh0⟩ := reachable_wfDims hr
  have hprod : (s.view_width * s.view_height).toNat
      = s.view_width.toNat * s.view_height.toNat :=
    toNat_mul_of_nonneg hvw0 hvh0
  have hrows : s.rowsOut = s.data := by
    apply rowsOut_eq_data
    rw [hlen, hprod, Nat.mul_comm]
  refine ⟨rfl, rfl, rfl, rfl, htw.symm, hth.symm, rfl, rfl, ?_⟩
  show readInto
      (List.replicate (s.view_width * s.view_height).toNat default)
      s.rowsOut = s.data
  rw [hrows]
  apply readInto_self
  rw [hlen, List.length_replicate]

/-- Witness for C1 on a freshly built 2×2 array of fives. -/
theorem C1_native_roundtrip_witness :
    ((emptyArray (α := Int)).resize 2 2 5).data.length =
      (((emptyArray (α := Int)).resize 2 2 5).view_width *
        ((emptyArray (α := Int)).resize 2 2 5).view_height).toNat ∧
    ((emptyArray (α := Int)).loadNative
        ((emptyArray (α := Int)).resize 2 2 5).saveNative).data =
      ((emptyArray (α := Int)).resize 2 2 5).data :=
  ⟨by decide,
    (C1_native_roundtrip ((emptyArray (α := Int)).resize 2 2 5)
      (Reachable.resize 2 2 5 (by decide) (by decide) Reachable.empty)
      (by decide)).2.2.2.2.2.2.2.2⟩

end RichDem
